import Mathlib

/-!
Verification of the bidirectional language-model training scripts
(`scripts/language_model/ELMo-biLM/LSTMPCellWithClip.py`,
`scripts/language_model/ELMo-biLM/word_language_model.py`,
`scripts/language_model/bi_language_model.py`).

Numbers are modelled as rationals; the transcendental activations
(`sigmoid`, `tanh`) and the finite part of `math.exp` are abstract
function parameters, since none of the verified properties depend on
their numeric values.  Vectors are lists of rationals, matrices lists
of rows.  Fallible Python code (asserts, imports, attribute access,
unbound locals) is modelled with `Except`.
-/

namespace GluonNLP

/-! ### Projected LSTM cell with clipping (`LSTMPCellWithClip.py`) -/

/-- Dot product of two vectors, the per-unit core of `F.FullyConnected`. -/
def dot (w x : List ℚ) : ℚ := (List.zipWith (· * ·) w x).sum

/-- `F.FullyConnected(data=x, weight=W, bias=b)`: each output unit is the dot
product of its weight row with the data plus its bias entry. -/
def fullyConnected (x : List ℚ) (W : List (List ℚ)) (b : List ℚ) : List ℚ :=
  List.zipWith (fun wrow bi => dot wrow x + bi) W b

/-- `F.FullyConnected(data=x, weight=W, no_bias=True)`. -/
def fullyConnectedNB (x : List ℚ) (W : List (List ℚ)) : List ℚ :=
  W.map (fun wrow => dot wrow x)

/-- `F.clip(v, a_min=-b, a_max=b)`: element-wise hard clamp to `[-b, b]`. -/
def clipv (b : ℚ) (v : List ℚ) : List ℚ :=
  v.map (fun x => min (max x (-b)) b)

/-- The optional clipping steps of `hybrid_forward`
(`if self._cell_clip is not None: F.clip(...)`, and likewise for the
projection): clip when a bound is configured, pass through otherwise. -/
def optClip (b? : Option ℚ) (v : List ℚ) : List ℚ :=
  match b? with
  | none => v
  | some b => clipv b v

/-- The activation functions the cell uses (`act_type="sigmoid"` and
`act_type="tanh"`), abstracted: the verified properties hold for any
interpretation of them. -/
structure ActFuns where
  sigmoid : ℚ → ℚ
  tanh : ℚ → ℚ

/-- The parameter tensors of one `LSTMPCellWithClip`: stacked input-to-hidden
and hidden-to-hidden weights and biases (4·hidden_size rows, gate order
i, f, g, o as produced by `SliceChannel`), plus the projection weight. -/
structure LSTMPWeights where
  i2h_weight : List (List ℚ)
  i2h_bias : List ℚ
  h2h_weight : List (List ℚ)
  h2h_bias : List ℚ
  h2r_weight : List (List ℚ)

/-- `LSTMPCellWithClip.hybrid_forward` (lines 71-96).  `n` is
`self._hidden_size`; `states = (r_prev, c_prev)` is `[states[0], states[1]]`.
Mirrors the source line by line: the two `FullyConnected` maps, their sum,
`SliceChannel` into four gates, the gate activations, the cell update,
optional cell clip, the hidden value, the bias-free projection, optional
projection clip, returning `(next_r, [next_r, next_c])`. -/
def hybrid_forward (A : ActFuns) (n : ℕ) (p : LSTMPWeights)
    (cell_clip projection_clip : Option ℚ)
    (inputs : List ℚ) (states : List ℚ × List ℚ) :
    List ℚ × (List ℚ × List ℚ) :=
  let i2h := fullyConnected inputs p.i2h_weight p.i2h_bias
  let h2h := fullyConnected states.1 p.h2h_weight p.h2h_bias
  let gates := List.zipWith (· + ·) i2h h2h
  let in_gate := (gates.take n).map A.sigmoid
  let forget_gate := ((gates.drop n).take n).map A.sigmoid
  let in_transform := ((gates.drop (2 * n)).take n).map A.tanh
  let out_gate := ((gates.drop (3 * n)).take n).map A.sigmoid
  let next_c := optClip cell_clip
    (List.zipWith (· + ·) (List.zipWith (· * ·) forget_gate states.2)
                          (List.zipWith (· * ·) in_gate in_transform))
  let hidden := List.zipWith (· * ·) out_gate (next_c.map A.tanh)
  let next_r := optClip projection_clip (fullyConnectedNB hidden p.h2r_weight)
  (next_r, (next_r, next_c))

/-- Modelled from the spec: the unclipped projected-LSTM reference equations
(spec section 4.1 and the cell's own docstring):
`i_t = sigmoid(W_ii x + b_ii + W_ri r + b_ri)` and likewise for `f_t`
(sigmoid), `g_t` (tanh), `o_t` (sigmoid), where the four gate blocks are the
consecutive `hidden_size`-row slices of the stacked parameter tensors;
`c_t = f_t ⊙ c_prev + i_t ⊙ g_t`; `h_t = o_t ⊙ tanh(c_t)`;
`r_t = W_hr · h_t` with no bias.  Returns `(r_t, c_t)`. -/
def lstmpReference (A : ActFuns) (n : ℕ) (p : LSTMPWeights)
    (x r c : List ℚ) : List ℚ × List ℚ :=
  let gate := fun (act : ℚ → ℚ) (Wi : List (List ℚ)) (bi : List ℚ)
                  (Wh : List (List ℚ)) (bh : List ℚ) =>
    (List.zipWith (· + ·) (fullyConnected x Wi bi) (fullyConnected r Wh bh)).map act
  let i_t := gate A.sigmoid (p.i2h_weight.take n) (p.i2h_bias.take n)
                            (p.h2h_weight.take n) (p.h2h_bias.take n)
  let f_t := gate A.sigmoid ((p.i2h_weight.drop n).take n) ((p.i2h_bias.drop n).take n)
                            ((p.h2h_weight.drop n).take n) ((p.h2h_bias.drop n).take n)
  let g_t := gate A.tanh ((p.i2h_weight.drop (2 * n)).take n) ((p.i2h_bias.drop (2 * n)).take n)
                         ((p.h2h_weight.drop (2 * n)).take n) ((p.h2h_bias.drop (2 * n)).take n)
  let o_t := gate A.sigmoid ((p.i2h_weight.drop (3 * n)).take n) ((p.i2h_bias.drop (3 * n)).take n)
                            ((p.h2h_weight.drop (3 * n)).take n) ((p.h2h_bias.drop (3 * n)).take n)
  let c_t := List.zipWith (· + ·) (List.zipWith (· * ·) f_t c)
                                  (List.zipWith (· * ·) i_t g_t)
  let h_t := List.zipWith (· * ·) o_t (c_t.map A.tanh)
  (fullyConnectedNB h_t p.h2r_weight, c_t)

/-! ### Bidirectional multi-layer encoder (`ElmoLSTM`, `word_language_model.py`
lines 147-209).  The per-layer cells are abstract step functions
`cell : input → state → output × state`; `α` is the vector type carried
between cells and `σ` the per-layer recurrent state (for the LSTMP cell a
pair, but nothing here depends on its shape). -/

/-- One recurrent layer applied to a list of step inputs in order, threading
its state: the inner `for i in range(seq_len)` loop of `ElmoLSTM.forward`. -/
def scanCell {α σ : Type} (cell : α → σ → α × σ) : List α → σ → List α × σ
  | [], s => ([], s)
  | x :: xs, s =>
    let o := cell x s
    let rest := scanCell cell xs o.2
    (o.1 :: rest.1, rest.2)

/-- The backward-direction inner loop `for i in reversed(range(seq_len))`:
step indices are visited in decreasing order reading `inB[i]` (out-of-range
reads fall back to `default`, where Python would raise), the state is
threaded through, and each output is stored back at its index `i`, so the
returned list is in increasing index order. -/
def backScanCell {α σ : Type} [Inhabited α] (cell : α → σ → α × σ)
    (inB : List α) (seqLen : ℕ) (s : σ) : List α × σ :=
  let proc := scanCell cell (((List.range seqLen).reverse).map (fun i => inB.getD i default)) s
  (proc.1.reverse, proc.2)

/-- The outer `for j in range(self.num_layers)` loop of `ElmoLSTM.forward`:
layer `j` runs its forward cell over the current forward stream in increasing
time order, then its backward cell over the current backward stream in
decreasing time order; layer 0 consumes the raw input streams and layer `j>0`
the previous layer's outputs of the same direction.  Per-layer states are
consumed positionally (`states_forward[j]` / `states_backward[j]`).  Returns
`((outputs_forward, outputs_backward), (states_forward, states_backward))`,
each a list over layers. -/
def elmoLayers {α σ : Type} [Inhabited α] [Inhabited σ]
    (fwd bwd : ℕ → α → σ → α × σ) (seqLen : ℕ) :
    List ℕ → List α → List α → List σ → List σ →
    (List (List α) × List (List α)) × (List σ × List σ)
  | [], _, _, _, _ => (([], []), ([], []))
  | j :: rest, curF, curB, sF, sB =>
    let f := scanCell (fwd j) curF sF.headI
    let b := backScanCell (bwd j) curB seqLen sB.headI
    let r := elmoLayers fwd bwd seqLen rest f.1 b.1 sF.tail sB.tail
    ((f.1 :: r.1.1, b.1 :: r.1.2), (f.2 :: r.2.1, b.2 :: r.2.2))

/-- `ElmoLSTM.forward(inputs, states)` in word mode (`char_embedding=False`,
`inputs = (forward stream, backward stream)`), with explicit initial states:
`seq_len = inputs[0].shape[0]` is the length of the forward stream, and the
layer loop runs over `range(num_layers)`. -/
def elmoForward {α σ : Type} [Inhabited α] [Inhabited σ]
    (fwd bwd : ℕ → α → σ → α × σ) (num_layers : ℕ)
    (inputsF inputsB : List α) (statesF statesB : List σ) :
    (List (List α) × List (List α)) × (List σ × List σ) :=
  elmoLayers fwd bwd inputsF.length (List.range num_layers) inputsF inputsB statesF statesB

/-! ### Bidirectional language model construction (`ElmoBiLM.__init__` and
`ElmoBiLM._get_decoder`, `word_language_model.py` lines 231-280).
Parameter tensors are modelled by allocation ids: the embedding parameter is
created first (id 0); the decoder either reuses the embedding's parameter
container (`params=self.embedding[0].params`) or allocates a fresh one. -/

structure ElmoBiLMModel where
  vocabSize : ℕ
  embedSize : ℕ
  hiddenSize : ℕ
  numLayers : ℕ
  embeddingParam : ℕ
  decoderParam : ℕ
deriving DecidableEq

/-- `ElmoBiLM.__init__`: when `tie_weights` is set, the assert
`embed_size == hidden_size` runs before `super().__init__` and before any
sub-block (embedding, encoder, decoder) — hence any parameter — is created;
on success the blocks are built, the decoder sharing the embedding's
parameter container exactly when `tie_weights` is set. -/
def ElmoBiLM_init (vocab_size embed_size hidden_size num_layers : ℕ)
    (tie_weights : Bool) : Except String ElmoBiLMModel :=
  if tie_weights ∧ embed_size ≠ hidden_size then
    Except.error "AssertionError: Embedding dimension must be equal to hidden dimension in order to tie weights."
  else
    Except.ok
      { vocabSize := vocab_size
        embedSize := embed_size
        hiddenSize := hidden_size
        numLayers := num_layers
        embeddingParam := 0
        decoderParam := if tie_weights then 0 else 1 }

/-! ### End-of-epoch learning-rate schedule (`train`, `word_language_model.py`
lines 583-595 and `bi_language_model.py` lines 323-335 — the two scripts'
blocks are textually identical).  `best_val` starts at `float('Inf')`,
modelled as `⊤ : WithTop ℚ`. -/

structure TrainState where
  bestVal : WithTop ℚ
  updateLrEpoch : ℕ
  lr : ℚ
deriving DecidableEq

/-- The end-of-epoch block of `train`: if the epoch's validation loss improved
on the best seen (`val_L < best_val`) the no-improvement counter is reset,
the best updated and (checkpoint/test evaluation aside) the learning rate
untouched; otherwise the counter is incremented and, when
`update_lr_epoch % lr_update_interval == 0 and update_lr_epoch != 0`, the
learning rate is multiplied by `lr_update_factor` and the counter reset. -/
def epochEnd (lr_update_interval : ℕ) (lr_update_factor : ℚ)
    (s : TrainState) (val_L : ℚ) : TrainState :=
  if (val_L : WithTop ℚ) < s.bestVal then
    { bestVal := (val_L : WithTop ℚ), updateLrEpoch := 0, lr := s.lr }
  else
    let c := s.updateLrEpoch + 1
    if c % lr_update_interval = 0 ∧ c ≠ 0 then
      { bestVal := s.bestVal, updateLrEpoch := 0, lr := s.lr * lr_update_factor }
    else
      { bestVal := s.bestVal, updateLrEpoch := c, lr := s.lr }

/-! ### Per-chunk loss scoring (`get_batch`, `evaluate` lines 423-437,
`criterion` and the `train` loop lines 545-553 of `word_language_model.py`).
Tokens are an abstract type `τ`, logits an abstract type `β`; the model call
`model((data, target), hidden)` is abstracted to a function of the two input
streams (hidden-state threading is irrelevant to which tokens are scored),
and cross-entropy `loss(logits, tokens)` to an abstract `lossF`. -/

/-- `get_batch(data_source, i)`: `seq_len = min(bptt, len(data_source)-1-i)`,
`data = data_source[i:i+seq_len]`, `target = data_source[i+1:i+1+seq_len]`. -/
def get_batch {τ : Type} (source : List τ) (bptt i : ℕ) : List τ × List τ :=
  let seqLen := min bptt (source.length - 1 - i)
  ((source.drop i).take seqLen, (source.drop (i + 1)).take seqLen)

/-- The loss accumulated for one chunk by `evaluate` (lines 424-437):
the model is called on `(data, target)` and the result scored as
`loss(output[0], target) + loss(output[1], data)`. -/
def evaluateChunkLoss {τ β : Type} (model : List τ → List τ → β × β)
    (lossF : β → List τ → ℚ) (source : List τ) (bptt i : ℕ) : ℚ :=
  let db := get_batch source bptt i
  let out := model db.1 db.2
  lossF out.1 db.2 + lossF out.2 db.1

/-- `criterion(output, target, ...)` (lines 488-519): the cross-entropy of the
output against the target plus the (optional) alpha/beta regularization
terms, which do not depend on the target and are abstracted into `reg`. -/
def criterion {τ β : Type} (lossF : β → List τ → ℚ) (reg : ℚ)
    (output : β) (target : List τ) : ℚ :=
  lossF output target + reg

/-- The loss accumulated for one device's chunk by the `train` loop
(lines 545-553): `criterion(output[0], y, ...) + criterion(output[1], X, ...)`
where `(X, y)` is the `(data, target)` chunk the model was called on. -/
def trainChunkLoss {τ β : Type} (model : List τ → List τ → β × β)
    (lossF : β → List τ → ℚ) (reg : ℚ) (source : List τ) (bptt i : ℕ) : ℚ :=
  let db := get_batch source bptt i
  let out := model db.1 db.2
  criterion lossF reg out.1 db.2 + criterion lossF reg out.2 db.1

/-- Modelled from the spec: same-position reconstruction scoring — for one
chunk, forward logits are scored against the next-token targets
`data_source[i+1:i+1+seq_len]` and backward logits against the same-position
tokens `data_source[i:i+seq_len]` themselves. -/
def reconstructionChunkLoss {τ β : Type} (model : List τ → List τ → β × β)
    (lossF : β → List τ → ℚ) (source : List τ) (bptt i : ℕ) : ℚ :=
  let seqLen := min bptt (source.length - 1 - i)
  let samePos := (source.drop i).take seqLen
  let nextTok := (source.drop (i + 1)).take seqLen
  lossF (model samePos nextTok).1 nextTok + lossF (model samePos nextTok).2 samePos

/-- Modelled from the spec: the alternative previous-token objective the spec's
open question contrasts with — backward logits at position `t` scored against
the token at position `t-1`, i.e. against the chunk
`data_source[i-1:i-1+seq_len]`. -/
def prevTokenChunkLoss {τ β : Type} (model : List τ → List τ → β × β)
    (lossF : β → List τ → ℚ) (source : List τ) (bptt i : ℕ) : ℚ :=
  let seqLen := min bptt (source.length - 1 - i)
  let samePos := (source.drop i).take seqLen
  let nextTok := (source.drop (i + 1)).take seqLen
  let prevTok := (source.drop (i - 1)).take seqLen
  lossF (model samePos nextTok).1 nextTok + lossF (model samePos nextTok).2 prevTok

/-! ### Perplexity computation (`get_ppl`, `word_language_model.py` lines
396-401, and the unguarded `math.exp` calls at lines 567, 581, 588, 610-611
and `bi_language_model.py` lines 307, 321, 328, 348-349).  `math.exp` on a
Python float raises `OverflowError` when its argument exceeds the overflow
threshold; its finite values `e` and the threshold `thr` are abstract. -/

/-- `math.exp(L)`: the finite value `e L` when `L` is below the overflow
threshold, a raised `OverflowError` otherwise. -/
def mathExp (e : ℚ → ℚ) (thr : ℚ) (L : ℚ) : Except Unit ℚ :=
  if L ≤ thr then Except.ok (e L) else Except.error ()

/-- `get_ppl(cur_loss)` (lines 396-401): `math.exp` inside `try`, with a bare
`except` returning `float('inf')` (modelled as `⊤`). -/
def get_ppl (e : ℚ → ℚ) (thr : ℚ) (cur_loss : ℚ) : WithTop ℚ :=
  match mathExp e thr cur_loss with
  | Except.ok x => (x : WithTop ℚ)
  | Except.error _ => ⊤

/-- The perplexity computation the scripts actually execute when logging and
reporting (`math.exp(cur_L)`, `math.exp(val_L)`, `math.exp(test_L)` — never
`get_ppl`): the bare `math.exp`, whose exception propagates. -/
def reportPpl (e : ℚ → ℚ) (thr : ℚ) (cur_loss : ℚ) : Except Unit ℚ :=
  mathExp e thr cur_loss

/-! ### Layer-stack builder (`_get_rnn_cell`, `word_language_model.py`
lines 122-145). -/

/-- The cells `_get_rnn_cell` can place in the sequential chain. -/
inductive CellSpec where
  | rnnReluCell (hidden input_size : ℕ)
  | rnnTanhCell (hidden input_size : ℕ)
  | lstmCell (hidden input_size : ℕ)
  | gruCell (hidden input_size : ℕ)
  | lstmpCell (hidden proj input_size : ℕ) (cell_clip proj_clip : Option ℚ)
  | residualCell (inner : CellSpec)
  | dropoutCell (rate : ℚ)
deriving DecidableEq

/-- The `if mode == ... elif ...` chain in the body of `_get_rnn_cell`'s layer
loop: for an unrecognized mode no branch assigns the local variable `cell`,
so the subsequent use of `cell` raises; modelled as `none`. -/
def cellForMode (mode : String) (input_size hidden_size proj_size : ℕ)
    (cell_clip proj_clip : Option ℚ) : Option CellSpec :=
  if mode = "rnn_relu" then some (CellSpec.rnnReluCell hidden_size input_size)
  else if mode = "rnn_tanh" then some (CellSpec.rnnTanhCell hidden_size input_size)
  else if mode = "lstm" then some (CellSpec.lstmCell hidden_size input_size)
  else if mode = "gru" then some (CellSpec.gruCell hidden_size input_size)
  else if mode = "lstmp" then
    some (CellSpec.lstmpCell hidden_size proj_size input_size cell_clip proj_clip)
  else none

/-- The `for i in range(num_layers)` loop of `_get_rnn_cell`, iteration count
as fuel: each iteration selects the cell for the mode (raising
`NameError`/`UnboundLocalError` on an unrecognized mode, since `cell` was
never assigned), optionally wraps it in a `ResidualCell`, adds it, and adds a
`DropoutCell` when `dropout != 0`. -/
def rnnCellLayers (mode : String) (input_size hidden_size proj_size : ℕ)
    (dropout : ℚ) (skip_connection : Bool)
    (cell_clip proj_clip : Option ℚ) : ℕ → Except String (List CellSpec)
  | 0 => Except.ok []
  | n + 1 =>
    match cellForMode mode input_size hidden_size proj_size cell_clip proj_clip with
    | none =>
      Except.error "UnboundLocalError: local variable cell referenced before assignment"
    | some cell =>
      let cell := if skip_connection then CellSpec.residualCell cell else cell
      let layer := if dropout ≠ 0 then [cell, CellSpec.dropoutCell dropout] else [cell]
      match rnnCellLayers mode input_size hidden_size proj_size dropout
              skip_connection cell_clip proj_clip n with
      | Except.ok rest => Except.ok (layer ++ rest)
      | Except.error e => Except.error e

/-- `_get_rnn_cell(mode, num_layers, input_size, hidden_size, dropout,
skip_connection, proj_size, cell_clip, proj_clip)`: the sequential chain of
cells, or the error raised while building it. -/
def _get_rnn_cell (mode : String) (num_layers input_size hidden_size : ℕ)
    (dropout : ℚ) (skip_connection : Bool) (proj_size : ℕ)
    (cell_clip proj_clip : Option ℚ) : Except String (List CellSpec) :=
  rnnCellLayers mode input_size hidden_size proj_size dropout skip_connection
    cell_clip proj_clip num_layers

/-! ### Script startup sequences.  Module-level code is modelled as an
`Except` chain in source order: imports, then (for the configuration stage)
the two asserts, then model construction.  Only the configuration values the
asserts read are modelled. -/

/-- The module names resolvable from
`scripts/language_model/ELMo-biLM/`: the external libraries the scripts
use, plus the sibling source file `LSTMPCellWithClip.py`. -/
def availableModules : List String :=
  ["argparse", "time", "math", "os", "sys", "mxnet", "gluonnlp",
   "LSTMPCellWithClip"]

/-- The modules imported at the top of `word_language_model.py`
(lines 41-51), in order; line 51 names `LSTMPCellLSTMPCellWithClip`. -/
def wordLMImports : List String :=
  ["argparse", "time", "math", "os", "sys", "mxnet", "gluonnlp",
   "LSTMPCellLSTMPCellWithClip"]

/-- Resolve a list of imports in order: the first unresolvable module raises
`ImportError` and aborts the script load. -/
def resolveImports : List String → Except String Unit
  | [] => Except.ok ()
  | m :: ms =>
    if m ∈ availableModules then resolveImports ms
    else Except.error ("ImportError: No module named " ++ m)

/-- The configuration values read by the module-level asserts of
`word_language_model.py` (lines 317-321) and by model construction. -/
structure WordLMArgs where
  batch_size : ℕ
  weight_dropout : ℚ
  alpha : ℚ
  tied : Bool
  emsize : ℕ
  nhid : ℕ
  nlayers : ℕ
deriving DecidableEq

/-- The two module-level asserts of `word_language_model.py` (lines 317-321),
run in order against `ndev = len(context)` devices:
`batch_size % len(context) == 0`, then
`weight_dropout > 0 or (weight_dropout == 0 and alpha == 0)`. -/
def wordLMChecks (ndev : ℕ) (a : WordLMArgs) : Except String Unit :=
  if a.batch_size % ndev = 0 then
    if a.weight_dropout > 0 ∨ (a.weight_dropout = 0 ∧ a.alpha = 0) then
      Except.ok ()
    else
      Except.error "AssertionError: The alpha L2 regularization cannot be used with standard RNN, please set alpha to 0"
  else
    Except.error "AssertionError: Total batch size must be multiple of the number of devices"

/-- The configuration stage of `word_language_model.py` from the asserts
onwards: validation first, then model construction (line 354) — a failing
assert means `ElmoBiLM.__init__` is never entered. -/
def wordLMConfigure (ndev : ℕ) (a : WordLMArgs) (vocab_size : ℕ) :
    Except String ElmoBiLMModel :=
  match wordLMChecks ndev a with
  | Except.error e => Except.error e
  | Except.ok _ => ElmoBiLM_init vocab_size a.emsize a.nhid a.nlayers a.tied

/-- The whole load of `word_language_model.py`: the import block runs before
argument parsing, data loading, the asserts and model construction. -/
def wordLMScript (ndev : ℕ) (a : WordLMArgs) (vocab_size : ℕ) :
    Except String ElmoBiLMModel :=
  match resolveImports wordLMImports with
  | Except.error e => Except.error e
  | Except.ok _ => wordLMConfigure ndev a vocab_size

/-- The configuration values of `bi_language_model.py` read around its
module-level asserts (lines 105-109).  Its argument parser defines no
`--weight_dropout` flag (the only mentions are in commented-out code), so the
namespace has no such attribute: the lookup is modelled as an `Option` that
is always `none`. -/
structure BiLMArgs where
  batch_size : ℕ
  alpha : ℚ
deriving DecidableEq

/-- Attribute lookup `args.weight_dropout` on the `bi_language_model.py`
namespace: no such attribute exists. -/
def BiLMArgs.weightDropoutAttr : BiLMArgs → Option ℚ := fun _ => none

/-- The module-level asserts of `bi_language_model.py` (lines 105-109), run
in order: the batch-divisibility assert, then the assert whose condition
begins by reading `args.weight_dropout` — an attribute the parser never
defined, so evaluating it raises `AttributeError`. -/
def biLMChecks (ndev : ℕ) (a : BiLMArgs) : Except String Unit :=
  if a.batch_size % ndev = 0 then
    match a.weightDropoutAttr with
    | none => Except.error "AttributeError: Namespace object has no attribute weight_dropout"
    | some wd =>
      if wd > 0 ∨ (wd = 0 ∧ a.alpha = 0) then Except.ok ()
      else Except.error "AssertionError: The alpha L2 regularization cannot be used with standard RNN, please set alpha to 0"
  else
    Except.error "AssertionError: Total batch size must be multiple of the number of devices"

/-- The configuration stage of `bi_language_model.py`: validation first; the
rest of the module (data loading already done, `BiRNN` model construction at
line 154, training) is reached only if the checks pass. -/
def biLMConfigure (ndev : ℕ) (a : BiLMArgs) : Except String Unit :=
  match biLMChecks ndev a with
  | Except.error e => Except.error e
  | Except.ok _ => Except.ok ()

/-! ## Theorems -/

lemma clipv_bounds {b : ℚ} (hb : 0 ≤ b) {v : List ℚ} :
    ∀ x ∈ clipv b v, -b ≤ x ∧ x ≤ b := by
  intro x hx
  simp only [clipv, List.mem_map] at hx
  obtain ⟨y, -, rfl⟩ := hx
  exact ⟨le_min (le_max_right _ _) (neg_le_self hb), min_le_right _ _⟩

/-- Claim C1: with both clip bounds configured as `b_c` and `b_p`, every
component of the cell state returned by one `hybrid_forward` call lies in
`[-b_c, b_c]`, and every component of the projected output and of the new
recurrent-state component (which coincide) lies in `[-b_p, b_p]`, for every
input, previous recurrent output and previous cell state. -/
theorem lstmp_clipped_outputs_bounded (A : ActFuns) (n : ℕ) (p : LSTMPWeights)
    (b_c b_p : ℚ) (hbc : 0 ≤ b_c) (hbp : 0 ≤ b_p)
    (inputs : List ℚ) (states : List ℚ × List ℚ) :
    (∀ x ∈ (hybrid_forward A n p (some b_c) (some b_p) inputs states).2.2,
       -b_c ≤ x ∧ x ≤ b_c) ∧
    (∀ x ∈ (hybrid_forward A n p (some b_c) (some b_p) inputs states).1,
       -b_p ≤ x ∧ x ≤ b_p) ∧
    (∀ x ∈ (hybrid_forward A n p (some b_c) (some b_p) inputs states).2.1,
       -b_p ≤ x ∧ x ≤ b_p) := by
  refine ⟨?_, ?_, ?_⟩ <;>
  · simp only [hybrid_forward, optClip]
    exact clipv_bounds (by assumption)

theorem lstmp_clipped_outputs_bounded_witness :
    (0:ℚ) ≤ 1 ∧ (0:ℚ) ≤ 2 ∧
    ((∀ x ∈ (hybrid_forward ⟨id, id⟩ 1 ⟨[[1]], [0], [[1]], [0], [[1]]⟩
        (some 1) (some 2) [3] ([0], [0])).2.2, -(1:ℚ) ≤ x ∧ x ≤ 1) ∧
     (∀ x ∈ (hybrid_forward ⟨id, id⟩ 1 ⟨[[1]], [0], [[1]], [0], [[1]]⟩
        (some 1) (some 2) [3] ([0], [0])).1, -(2:ℚ) ≤ x ∧ x ≤ 2) ∧
     (∀ x ∈ (hybrid_forward ⟨id, id⟩ 1 ⟨[[1]], [0], [[1]], [0], [[1]]⟩
        (some 1) (some 2) [3] ([0], [0])).2.1, -(2:ℚ) ≤ x ∧ x ≤ 2)) :=
  ⟨by norm_num, by norm_num,
   lstmp_clipped_outputs_bounded ⟨id, id⟩ 1 ⟨[[1]], [0], [[1]], [0], [[1]]⟩
     1 2 (by norm_num) (by norm_num) [3] ([0], [0])⟩

/-- Claim C2: with both `cell_clip` and `projection_clip` unset (`None`), one
`hybrid_forward` call computes exactly the unclipped projected-LSTM reference
equations, and returns `r_t` as the emitted output with new state exactly
`(r_t, c_t)`. -/
theorem lstmp_unclipped_equals_reference (A : ActFuns) (n : ℕ)
    (p : LSTMPWeights) (x r c : List ℚ) :
    hybrid_forward A n p none none x (r, c) =
      ((lstmpReference A n p x r c).1,
       ((lstmpReference A n p x r c).1, (lstmpReference A n p x r c).2)) := by
  simp [hybrid_forward, lstmpReference, optClip, fullyConnected,
    List.take_zipWith, List.drop_zipWith]

lemma elmoLayers_forward_indep {α σ : Type} [Inhabited α] [Inhabited σ]
    (fwd bwd : ℕ → α → σ → α × σ) (layers : List ℕ) :
    ∀ (curF curB curB' : List α) (sF sB sB' : List σ) (sl sl' : ℕ),
      (elmoLayers fwd bwd sl layers curF curB sF sB).1.1 =
        (elmoLayers fwd bwd sl' layers curF curB' sF sB').1.1 ∧
      (elmoLayers fwd bwd sl layers curF curB sF sB).2.1 =
        (elmoLayers fwd bwd sl' layers curF curB' sF sB').2.1 := by
  induction layers with
  | nil => intro curF curB curB' sF sB sB' sl sl'; exact ⟨rfl, rfl⟩
  | cons j rest ih =>
    intro curF curB curB' sF sB sB' sl sl'
    obtain ⟨h1, h2⟩ := ih (scanCell (fwd j) curF sF.headI).1
      (backScanCell (bwd j) curB sl sB.headI).1
      (backScanCell (bwd j) curB' sl' sB'.headI).1
      sF.tail sB.tail sB'.tail sl sl'
    simp only [elmoLayers]
    exact ⟨by rw [h1], by rw [h2]⟩

lemma elmoLayers_backward_indep {α σ : Type} [Inhabited α] [Inhabited σ]
    (fwd bwd : ℕ → α → σ → α × σ) (layers : List ℕ) :
    ∀ (curF curF' curB : List α) (sF sF' sB : List σ) (sl : ℕ),
      (elmoLayers fwd bwd sl layers curF curB sF sB).1.2 =
        (elmoLayers fwd bwd sl layers curF' curB sF' sB).1.2 ∧
      (elmoLayers fwd bwd sl layers curF curB sF sB).2.2 =
        (elmoLayers fwd bwd sl layers curF' curB sF' sB).2.2 := by
  induction layers with
  | nil => intro curF curF' curB sF sF' sB sl; exact ⟨rfl, rfl⟩
  | cons j rest ih =>
    intro curF curF' curB sF sF' sB sl
    obtain ⟨h1, h2⟩ := ih (scanCell (fwd j) curF sF.headI).1
      (scanCell (fwd j) curF' sF'.headI).1
      (backScanCell (bwd j) curB sl sB.headI).1
      sF.tail sF'.tail sB.tail sl
    simp only [elmoLayers]
    exact ⟨by rw [h1], by rw [h2]⟩

/-- Claim C3: in `ElmoLSTM.forward`, the per-layer forward-direction outputs
depend only on the forward input stream and the forward initial states — they
are unchanged under any change of the backward stream and backward states —
and the per-layer backward-direction outputs depend only on the backward
input stream and backward initial states, unchanged under any
length-preserving change (e.g. permuting or zeroing) of the forward stream
and any change of the forward states. -/
theorem elmo_direction_independence {α σ : Type} [Inhabited α] [Inhabited σ]
    (fwd bwd : ℕ → α → σ → α × σ) (num_layers : ℕ)
    (inputsF inputsF' inputsB inputsB' : List α)
    (sF sF' sB sB' : List σ)
    (hlen : inputsF.length = inputsF'.length) :
    (elmoForward fwd bwd num_layers inputsF inputsB sF sB).1.1 =
      (elmoForward fwd bwd num_layers inputsF inputsB' sF sB').1.1 ∧
    (elmoForward fwd bwd num_layers inputsF inputsB sF sB).1.2 =
      (elmoForward fwd bwd num_layers inputsF' inputsB sF' sB).1.2 := by
  constructor
  · exact (elmoLayers_forward_indep fwd bwd (List.range num_layers)
      inputsF inputsB inputsB' sF sB sB' inputsF.length inputsF.length).1
  · show (elmoLayers fwd bwd inputsF.length (List.range num_layers)
        inputsF inputsB sF sB).1.2 = _
    rw [hlen]
    exact (elmoLayers_backward_indep fwd bwd (List.range num_layers)
      inputsF inputsF' inputsB sF sF' sB inputsF'.length).1

theorem elmo_direction_independence_witness :
    ([1, 2] : List ℤ).length = ([7, 8] : List ℤ).length ∧
    ((elmoForward (fun _ x s => (x + s, x)) (fun _ x s => (x - s, s + 1)) 2
        ([1, 2] : List ℤ) [10, 20] ([0, 0] : List ℤ) [0, 0]).1.1 =
      (elmoForward (fun _ x s => (x + s, x)) (fun _ x s => (x - s, s + 1)) 2
        [1, 2] [30, 40] [0, 0] [5, 5]).1.1 ∧
     (elmoForward (fun _ x s => (x + s, x)) (fun _ x s => (x - s, s + 1)) 2
        ([1, 2] : List ℤ) [10, 20] ([0, 0] : List ℤ) [0, 0]).1.2 =
      (elmoForward (fun _ x s => (x + s, x)) (fun _ x s => (x - s, s + 1)) 2
        [7, 8] [10, 20] [1, 1] [0, 0]).1.2) :=
  ⟨by decide,
   elmo_direction_independence (fun _ x s => (x + s, x))
     (fun _ x s => (x - s, s + 1)) 2 [1, 2] [7, 8] [10, 20] [30, 40]
     [0, 0] [1, 1] [0, 0] [5, 5] (by decide)⟩

/-- Claim C4: constructing `ElmoBiLM` with `tie_weights=True` fails with the
configuration assertion whenever `embed_size ≠ hidden_size` — before any
parameter is created, since the assert precedes all block construction — and
when `embed_size = hidden_size` the construction succeeds with the decoder
sharing the embedding's parameter tensor. -/
theorem elmoBiLM_tie_weights_check (v e h n : ℕ) :
    (e ≠ h → ElmoBiLM_init v e h n true =
      Except.error "AssertionError: Embedding dimension must be equal to hidden dimension in order to tie weights.") ∧
    (e = h → ∃ m, ElmoBiLM_init v e h n true = Except.ok m ∧
      m.decoderParam = m.embeddingParam) := by
  constructor
  · intro hne
    simp [ElmoBiLM_init, hne]
  · intro he
    subst he
    refine ⟨⟨v, e, e, n, 0, 0⟩, ?_, rfl⟩
    simp [ElmoBiLM_init]

theorem elmoBiLM_tie_weights_check_witness :
    ElmoBiLM_init 10 3 4 1 true =
      Except.error "AssertionError: Embedding dimension must be equal to hidden dimension in order to tie weights." ∧
    (∃ m, ElmoBiLM_init 10 5 5 1 true = Except.ok m ∧
      m.decoderParam = m.embeddingParam) :=
  ⟨(elmoBiLM_tie_weights_check 10 3 4 1).1 (by decide),
   (elmoBiLM_tie_weights_check 10 5 5 1).2 rfl⟩

lemma epochEnd_no_decay (k : ℕ) (f : ℚ) (s : TrainState) (v : ℚ)
    (hni : ¬ ((v : WithTop ℚ) < s.bestVal))
    (hlt : s.updateLrEpoch + 1 < k) :
    epochEnd k f s v = ⟨s.bestVal, s.updateLrEpoch + 1, s.lr⟩ := by
  simp only [epochEnd]
  rw [if_neg hni, if_neg]
  rintro ⟨h1, h2⟩
  rw [Nat.mod_eq_of_lt hlt] at h1
  exact h2 h1

lemma foldl_no_decay (k : ℕ) (f : ℚ) (vals : List ℚ) :
    ∀ s : TrainState, (∀ v ∈ vals, ¬ ((v : WithTop ℚ) < s.bestVal)) →
      s.updateLrEpoch + vals.length < k →
      vals.foldl (epochEnd k f) s =
        ⟨s.bestVal, s.updateLrEpoch + vals.length, s.lr⟩ := by
  induction vals with
  | nil => intro s _ _; rfl
  | cons v vs ih =>
    intro s hni hlt
    simp only [List.length_cons] at hlt
    have hstep : epochEnd k f s v = ⟨s.bestVal, s.updateLrEpoch + 1, s.lr⟩ :=
      epochEnd_no_decay k f s v (hni v (by simp)) (by omega)
    have hrec := ih ⟨s.bestVal, s.updateLrEpoch + 1, s.lr⟩
      (by intro u hu; exact hni u (by simp [hu]))
      (by simp; omega)
    rw [List.foldl_cons, hstep, hrec]
    simp only [List.length_cons]
    congr 1
    omega

lemma foldl_decay (k : ℕ) (f : ℚ) (vals : List ℚ) :
    ∀ s : TrainState, vals ≠ [] →
      (∀ v ∈ vals, ¬ ((v : WithTop ℚ) < s.bestVal)) →
      s.updateLrEpoch + vals.length = k →
      vals.foldl (epochEnd k f) s = ⟨s.bestVal, 0, s.lr * f⟩ := by
  induction vals with
  | nil => intro s hne _ _; exact absurd rfl hne
  | cons v vs ih =>
    intro s _ hni hk
    cases vs with
    | nil =>
      have hc : s.updateLrEpoch + 1 = k := by simpa using hk
      have hstep : epochEnd k f s v = ⟨s.bestVal, 0, s.lr * f⟩ := by
        simp only [epochEnd]
        rw [if_neg (hni v (by simp)), if_pos]
        exact ⟨by rw [hc]; exact Nat.mod_self k, by omega⟩
      simp [hstep]
    | cons w ws =>
      have hlt : s.updateLrEpoch + 1 < k := by
        simp only [List.length_cons] at hk; omega
      have hstep : epochEnd k f s v = ⟨s.bestVal, s.updateLrEpoch + 1, s.lr⟩ :=
        epochEnd_no_decay k f s v (hni v (by simp)) hlt
      have hrec := ih ⟨s.bestVal, s.updateLrEpoch + 1, s.lr⟩ (by simp)
        (by intro u hu; exact hni u (by simp [hu]))
        (by simp only [List.length_cons] at hk ⊢; omega)
      rw [List.foldl_cons, hstep, hrec]

/-- Claim C5: starting an epoch run with the no-improvement counter at zero,
after exactly `lr_update_interval` consecutive epochs whose validation loss
did not improve on the best seen so far, the learning rate equals
`previous_rate * lr_update_factor` and the counter is reset to zero; after
fewer such epochs the rate is unchanged and the counter equals their number;
and an epoch that improves validation loss resets the counter without
changing the learning rate. -/
theorem lr_decay_schedule (k : ℕ) (f : ℚ) (s0 : TrainState) (vals : List ℚ)
    (hk : 0 < k) (hs0 : s0.updateLrEpoch = 0)
    (hni : ∀ v ∈ vals, ¬ ((v : WithTop ℚ) < s0.bestVal)) :
    (vals.length = k →
      (vals.foldl (epochEnd k f) s0).lr = s0.lr * f ∧
      (vals.foldl (epochEnd k f) s0).updateLrEpoch = 0) ∧
    (vals.length < k →
      (vals.foldl (epochEnd k f) s0).lr = s0.lr ∧
      (vals.foldl (epochEnd k f) s0).updateLrEpoch = vals.length) ∧
    (∀ v : ℚ, (v : WithTop ℚ) < s0.bestVal →
      (epochEnd k f s0 v).updateLrEpoch = 0 ∧ (epochEnd k f s0 v).lr = s0.lr) := by
  refine ⟨?_, ?_, ?_⟩
  · intro hlen
    have hne : vals ≠ [] := by
      intro hnil
      rw [hnil] at hlen
      simp at hlen
      omega
    rw [foldl_decay k f vals s0 hne hni (by omega)]
    exact ⟨rfl, rfl⟩
  · intro hlt
    rw [foldl_no_decay k f vals s0 hni (by omega)]
    exact ⟨rfl, by simp [hs0]⟩
  · intro v hv
    simp [epochEnd, hv]

theorem lr_decay_schedule_witness :
    0 < 2 ∧ (⟨((5 : ℚ) : WithTop ℚ), 0, 4⟩ : TrainState).updateLrEpoch = 0 ∧
    (([6, 7] : List ℚ).length = 2 →
      (([6, 7] : List ℚ).foldl (epochEnd 2 (1/2)) ⟨((5 : ℚ) : WithTop ℚ), 0, 4⟩).lr =
        (⟨((5 : ℚ) : WithTop ℚ), 0, 4⟩ : TrainState).lr * (1/2) ∧
      (([6, 7] : List ℚ).foldl (epochEnd 2 (1/2)) ⟨((5 : ℚ) : WithTop ℚ), 0, 4⟩).updateLrEpoch = 0) ∧
    (([6, 7] : List ℚ).length < 2 →
      (([6, 7] : List ℚ).foldl (epochEnd 2 (1/2)) ⟨((5 : ℚ) : WithTop ℚ), 0, 4⟩).lr =
        (⟨((5 : ℚ) : WithTop ℚ), 0, 4⟩ : TrainState).lr ∧
      (([6, 7] : List ℚ).foldl (epochEnd 2 (1/2)) ⟨((5 : ℚ) : WithTop ℚ), 0, 4⟩).updateLrEpoch =
        ([6, 7] : List ℚ).length) ∧
    (∀ v : ℚ, (v : WithTop ℚ) < (⟨((5 : ℚ) : WithTop ℚ), 0, 4⟩ : TrainState).bestVal →
      (epochEnd 2 (1/2) ⟨((5 : ℚ) : WithTop ℚ), 0, 4⟩ v).updateLrEpoch = 0 ∧
      (epochEnd 2 (1/2) ⟨((5 : ℚ) : WithTop ℚ), 0, 4⟩ v).lr =
        (⟨((5 : ℚ) : WithTop ℚ), 0, 4⟩ : TrainState).lr) :=
  ⟨by norm_num, rfl,
   lr_decay_schedule 2 (1/2) ⟨((5 : ℚ) : WithTop ℚ), 0, 4⟩ [6, 7]
     (by norm_num) rfl
     (by
       intro v hv
       simp only [List.mem_cons, List.not_mem_nil, or_false] at hv
       rcases hv with rfl | rfl <;>
       · rw [WithTop.coe_lt_coe]
         norm_num)⟩

/-- Claim C6: in both the `evaluate` function and the `train` loop of the
ELMo script, the backward-direction logits are scored against the
same-position input tokens (the data chunk itself, reconstruction): the
per-chunk loss of `evaluate` equals the same-position reconstruction
objective, the per-chunk loss of `train` equals it plus the two
regularization terms, and at a concrete input it differs from the
shifted previous-token objective. -/
theorem backward_loss_same_position :
    (∀ (τ β : Type) (model : List τ → List τ → β × β)
        (lossF : β → List τ → ℚ) (source : List τ) (bptt i : ℕ),
      evaluateChunkLoss model lossF source bptt i =
        reconstructionChunkLoss model lossF source bptt i) ∧
    (∀ (τ β : Type) (model : List τ → List τ → β × β)
        (lossF : β → List τ → ℚ) (reg : ℚ) (source : List τ) (bptt i : ℕ),
      trainChunkLoss model lossF reg source bptt i =
        reconstructionChunkLoss model lossF source bptt i + 2 * reg) ∧
    evaluateChunkLoss (fun d t => (d, t)) (fun _ tgt => tgt.sum)
        [(0 : ℚ), 1, 2, 3] 2 1 ≠
      prevTokenChunkLoss (fun d t => (d, t)) (fun _ tgt => tgt.sum)
        [(0 : ℚ), 1, 2, 3] 2 1 := by
  refine ⟨?_, ?_, ?_⟩
  · intro τ β model lossF source bptt i
    rfl
  · intro τ β model lossF reg source bptt i
    simp only [trainChunkLoss, criterion, reconstructionChunkLoss, get_batch]
    ring
  · norm_num [evaluateChunkLoss, prevTokenChunkLoss, get_batch]

/-- Claim C7: for every configuration whose batch size is not divisible by
the device count, or with weight dropout zero while alpha is non-zero, both
training scripts fail fatally during module-level configuration validation,
before model construction is reached.  (`bi_language_model.py` in fact fails
for every configuration that passes the divisibility assert, because its
second assert reads the undefined `args.weight_dropout` attribute.) -/
theorem config_validation_fatal (ndev : ℕ) (wa : WordLMArgs) (ba : BiLMArgs)
    (vocab_size : ℕ)
    (hbad : ¬ wa.batch_size % ndev = 0 ∨
      (wa.weight_dropout = 0 ∧ wa.alpha ≠ 0)) :
    (∃ e, wordLMConfigure ndev wa vocab_size = Except.error e) ∧
    (∃ e, biLMConfigure ndev ba = Except.error e) := by
  constructor
  · rcases hbad with h | ⟨h0, ha⟩
    · exact ⟨"AssertionError: Total batch size must be multiple of the number of devices",
        by simp [wordLMConfigure, wordLMChecks, h]⟩
    · by_cases hd : wa.batch_size % ndev = 0
      · exact ⟨"AssertionError: The alpha L2 regularization cannot be used with standard RNN, please set alpha to 0",
          by simp [wordLMConfigure, wordLMChecks, hd, h0, ha]⟩
      · exact ⟨"AssertionError: Total batch size must be multiple of the number of devices",
          by simp [wordLMConfigure, wordLMChecks, hd]⟩
  · by_cases hd : ba.batch_size % ndev = 0
    · exact ⟨"AttributeError: Namespace object has no attribute weight_dropout",
        by simp [biLMConfigure, biLMChecks, BiLMArgs.weightDropoutAttr, hd]⟩
    · exact ⟨"AssertionError: Total batch size must be multiple of the number of devices",
        by simp [biLMConfigure, biLMChecks, hd]⟩

theorem config_validation_fatal_witness :
    (¬ (3 : ℕ) % 2 = 0 ∨ ((1/2 : ℚ) = 0 ∧ (2 : ℚ) ≠ 0)) ∧
    ((∃ e, wordLMConfigure 2 ⟨3, 1/2, 2, false, 400, 1150, 3⟩ 100 = Except.error e) ∧
     (∃ e, biLMConfigure 2 ⟨3, 0⟩ = Except.error e)) :=
  ⟨Or.inl (by decide),
   config_validation_fatal 2 ⟨3, 1/2, 2, false, 400, 1150, 3⟩ ⟨3, 0⟩ 100
     (Or.inl (by decide))⟩

/-- Claim C8 counterexample: the claim says every perplexity computation of
the program maps an overflowing exponential to `+inf` instead of raising, but
the perplexity the train loop actually computes is the bare `math.exp`, which
at the concrete loss value 710 (threshold 709) propagates the overflow
exception instead of returning `+inf`. -/
theorem report_ppl_raises_on_overflow :
    reportPpl id 709 710 = Except.error () ∧
    reportPpl id 709 710 ≠ Except.ok ((710 : ℚ)) := by
  have h : reportPpl id 709 710 = Except.error () := by
    norm_num [reportPpl, mathExp]
  refine ⟨h, ?_⟩
  rw [h]
  exact fun hc => Except.noConfusion hc

/-- Claim C8 (amended): the `get_ppl` helper maps an overflowing exponential
to `+inf` and a representable one to its value, never propagating the
exception — but the perplexity computations the scripts actually run (the
train-loop logging and the validation/test reports, which call `math.exp`
directly and never `get_ppl`) propagate the overflow exception. -/
theorem get_ppl_guards_overflow (e : ℚ → ℚ) (thr L : ℚ) :
    (L ≤ thr → get_ppl e thr L = (e L : WithTop ℚ) ∧
      reportPpl e thr L = Except.ok (e L)) ∧
    (thr < L → get_ppl e thr L = ⊤ ∧
      reportPpl e thr L = Except.error ()) := by
  constructor
  · intro h
    constructor <;> simp [get_ppl, reportPpl, mathExp, h]
  · intro h
    have h' : ¬ L ≤ thr := not_le.mpr h
    constructor <;> simp [get_ppl, reportPpl, mathExp, h']

theorem get_ppl_guards_overflow_witness :
    (get_ppl id 709 3 = ((id (3 : ℚ) : ℚ) : WithTop ℚ) ∧
      reportPpl id 709 3 = Except.ok (id (3 : ℚ))) ∧
    (get_ppl id 709 710 = ⊤ ∧ reportPpl id 709 710 = Except.error ()) :=
  ⟨(get_ppl_guards_overflow id 709 3).1 (by norm_num),
   (get_ppl_guards_overflow id 709 710).2 (by norm_num)⟩

/-- Claim C9: the module-level import at line 51 of
`word_language_model.py` names the module `LSTMPCellLSTMPCellWithClip`,
while the cell is defined in the sibling file `LSTMPCellWithClip.py`; so for
every invocation of the script the load fails with an `ImportError`, before
argument parsing, configuration validation, data loading or model
construction. -/
theorem wordLM_import_error (ndev : ℕ) (a : WordLMArgs) (vocab_size : ℕ) :
    wordLMScript ndev a vocab_size =
      Except.error "ImportError: No module named LSTMPCellLSTMPCellWithClip" ∧
    "LSTMPCellLSTMPCellWithClip" ∉ availableModules ∧
    "LSTMPCellWithClip" ∈ availableModules :=
  ⟨rfl, by decide, by decide⟩

/-- Claim C10: for every mode string outside the five recognized values and
every `num_layers ≥ 1`, `_get_rnn_cell` returns no cell chain: the per-layer
`cell` variable is never assigned, so its first use raises and no fall-back
or default cell is produced. -/
theorem unknown_mode_no_cell (mode : String)
    (hm : mode ∉ ["rnn_relu", "rnn_tanh", "lstm", "gru", "lstmp"])
    (num_layers input_size hidden_size : ℕ) (hL : 1 ≤ num_layers)
    (dropout : ℚ) (skip_connection : Bool) (proj_size : ℕ)
    (cell_clip proj_clip : Option ℚ) :
    _get_rnn_cell mode num_layers input_size hidden_size dropout
        skip_connection proj_size cell_clip proj_clip =
      Except.error "UnboundLocalError: local variable cell referenced before assignment" := by
  simp only [List.mem_cons, List.not_mem_nil, or_false, not_or] at hm
  obtain ⟨h1, h2, h3, h4, h5⟩ := hm
  have hmode : cellForMode mode input_size hidden_size proj_size cell_clip
      proj_clip = none := by
    simp [cellForMode, h1, h2, h3, h4, h5]
  obtain ⟨n, rfl⟩ : ∃ n, num_layers = n + 1 := ⟨num_layers - 1, by omega⟩
  simp [_get_rnn_cell, rnnCellLayers, hmode]

theorem unknown_mode_no_cell_witness :
    "elman" ∉ ["rnn_relu", "rnn_tanh", "lstm", "gru", "lstmp"] ∧
    1 ≤ 1 ∧
    _get_rnn_cell "elman" 1 10 20 0 false 5 none none =
      Except.error "UnboundLocalError: local variable cell referenced before assignment" :=
  ⟨by decide, by decide,
   unknown_mode_no_cell "elman" (by decide) 1 10 20 (by decide) 0 false 5
     none none⟩

end GluonNLP
